import Mathlib

/-!
Verification of the VPN proxy server core (`server.js`, `vpnManager.js`,
`proxyHandler.js`) against its natural-language specification.

The JavaScript source is shallowly embedded: the `VPNManager` class becomes a
record of association lists (modelling the JS `Map`s `connections`,
`connectionStatus`, `reconnectAttempts`); asynchronous control flow is cut at
its suspension points, so the synchronous prefix of `startVPN` (everything up
to the first `await`) is a pure state transformer, the liveness-probe loop of
`waitForConnection` is a fuel-indexed recursion over poll indices, and the
retry loop of `ProxyHandler.handleRequest` is a recursion over the attempt
counter with the transport and the concurrently-evolving connection liveness
supplied as oracles (`Nat → _` functions indexed by attempt / poll number).
Side effects that the claims talk about (process spawns, network calls,
back-off waits, termination signals) are returned as explicit data.
-/

namespace VPNProxy

/-- The four connection states of the manager
(`'connected' | 'connecting' | 'disconnected' | 'error'` in the source). -/
inductive ConnState
  | disconnected
  | connecting
  | connected
  | error
deriving DecidableEq, Repr

/-- VPN protocol selector (`'tcp' | 'udp'`). -/
inductive Protocol
  | tcp
  | udp
deriving DecidableEq, Repr

/-- Entry of the `connections` map: `{ process, protocol, startTime }`.
The process handle itself carries no data the claims need; its existence is
the existence of the entry. -/
structure ConnInfo where
  protocol : Protocol
  startTime : Nat
deriving DecidableEq, Repr

/-- String-keyed association list, modelling a JS `Map` / plain object. -/
abbrev SMap (α : Type) := List (String × α)

/-- Models `map.get(k)`. -/
def SMap.get (m : SMap α) (k : String) : Option α :=
  List.lookup k m

/-- Models `map.set(k, v)` (JS object property assignment likewise). -/
def SMap.set (m : SMap α) (k : String) (v : α) : SMap α :=
  (k, v) :: m.filter (fun p => p.1 ≠ k)

/-- Models `map.delete(k)` (JS `delete obj.k` likewise). -/
def SMap.del (m : SMap α) (k : String) : SMap α :=
  m.filter (fun p => p.1 ≠ k)

/-- The `VPNManager` instance state: its three `Map`s and the reconnect
configuration fields set in the constructor. -/
structure VPNManager where
  connections : SMap ConnInfo
  connectionStatus : SMap ConnState
  reconnectAttempts : SMap Nat
  maxReconnectAttempts : Nat := 3
  reconnectDelay : Nat := 5000
deriving DecidableEq, Repr

/-- The freshly constructed manager (`new VPNManager()`). -/
def VPNManager.init : VPNManager :=
  { connections := [], connectionStatus := [], reconnectAttempts := [] }

/-- Models `isConnected(connectionId)`:
`this.connectionStatus.get(connectionId) === 'connected'`. -/
def VPNManager.isConnected (m : VPNManager) (id : String) : Bool :=
  m.connectionStatus.get id = some ConnState.connected

/-- Models `getStatus(connectionId)`:
`this.connectionStatus.get(connectionId) || 'disconnected'`. -/
def VPNManager.getStatus (m : VPNManager) (id : String) : ConnState :=
  (m.connectionStatus.get id).getD ConnState.disconnected

/-- Observable effects of one `stopVPN` call: whether the no-op warning was
logged, and whether a SIGTERM was sent to a live process. -/
structure StopEffect where
  warnedNotFound : Bool
  sigtermSent : Bool
deriving DecidableEq, Repr

/-- Models `stopVPN(connectionId)`: if the id is not in `connections`, log a warning
and return (no throw, no state change). Otherwise SIGTERM the process,
delete the entry, mark the status `disconnected` and clear the reconnect
counter. (The 5s SIGKILL escalation timer is fire-and-forget and touches no
manager state, so it is not part of the returned state.) -/
def VPNManager.stopVPN (m : VPNManager) (id : String) : VPNManager × StopEffect :=
  match m.connections.get id with
  | none => (m, { warnedNotFound := true, sigtermSent := false })
  | some _ =>
      ({ m with
          connections := m.connections.del id
          connectionStatus := m.connectionStatus.set id ConnState.disconnected
          reconnectAttempts := m.reconnectAttempts.del id },
       { warnedNotFound := false, sigtermSent := true })

/-- Filesystem facts `startVPN` consults (`fs.existsSync` on the config and
auth files). -/
structure StartEnv where
  configExists : Bool
  authExists : Bool
deriving DecidableEq, Repr

/-- How the synchronous prefix of `startVPN` ended. -/
inductive StartSyncOutcome
  | alreadyActive
  | configMissing
  | authMissing
  | spawnedAwaitingProbe
deriving DecidableEq, Repr

/-- The synchronous prefix of `startVPN(connectionId, protocol)`: everything
that runs before the first suspension (`await this.waitForConnection(...)`).
It checks `isConnected` (returning success with no spawn if `'connected'`),
checks the config and auth files (throwing if missing), spawns the openvpn
process, registers the exit handlers, stores the `connections` entry, and —
as the first synchronous action of `waitForConnection` — sets the status to
`'connecting'`. The last component counts processes spawned by this call. -/
def VPNManager.startVPNSync (m : VPNManager) (id : String) (proto : Protocol)
    (env : StartEnv) (now : Nat) : VPNManager × StartSyncOutcome × Nat :=
  if m.isConnected id then
    (m, StartSyncOutcome.alreadyActive, 0)
  else if ¬ env.configExists then
    (m, StartSyncOutcome.configMissing, 0)
  else if ¬ env.authExists then
    (m, StartSyncOutcome.authMissing, 0)
  else
    ({ m with
        connections := m.connections.set id ⟨proto, now⟩
        connectionStatus := m.connectionStatus.set id ConnState.connecting },
     StartSyncOutcome.spawnedAwaitingProbe, 1)

/-- Models `attemptReconnect(connectionId, protocol)`: read the attempt counter
(default 0); if it has reached `maxReconnectAttempts`, log and return without
scheduling anything; otherwise increment the counter and schedule a delayed
`startVPN`. The Bool reports whether a reconnect start was scheduled. -/
def VPNManager.attemptReconnect (m : VPNManager) (id : String) :
    VPNManager × Bool :=
  if (m.reconnectAttempts.get id).getD 0 ≥ m.maxReconnectAttempts then
    (m, false)
  else
    ({ m with reconnectAttempts :=
        m.reconnectAttempts.set id ((m.reconnectAttempts.get id).getD 0 + 1) },
     true)

/-- The `'exit'` handler registered in `startVPN`: mark the status
`'disconnected'`, drop the `connections` entry, and if the exit was
unintentional (`code !== 0 && !signal`; a signal-killed process has
`code = null`) invoke `attemptReconnect`. The Bool reports whether a
reconnect start was scheduled by this exit. -/
def VPNManager.onExit (m : VPNManager) (id : String) (code : Option Int)
    (signal : Option String) : VPNManager × Bool :=
  if code ≠ some 0 ∧ signal = none then
    VPNManager.attemptReconnect
      { m with
          connectionStatus := m.connectionStatus.set id ConnState.disconnected
          connections := m.connections.del id } id
  else
    ({ m with
        connectionStatus := m.connectionStatus.set id ConnState.disconnected
        connections := m.connections.del id },
     false)

/-- Runs `k` consecutive unintentional process exits (non-zero code, no signal)
for the same connection, with no successful reconnect in between — so the
attempt counter is never reset. Returns the final manager state and whether
the LAST exit scheduled a further reconnect start. -/
def VPNManager.consecutiveExits (m : VPNManager) (id : String) :
    Nat → VPNManager × Bool
  | 0 => (m, false)
  | k + 1 =>
      let (m', _) := m.consecutiveExits id k
      m'.onExit id (some 1) none

/-- How the liveness wait of `waitForConnection` resolved, with the elapsed
time (ms since the wait began) at resolution. Polls run at a 1s interval
(`checkInterval = 1000`), so with instantaneous probes poll `k` happens at
elapsed time `k * 1000`. -/
inductive ProbeOutcome
  | timedOut (elapsed : Nat)
  | established (elapsed : Nat)
deriving DecidableEq, Repr

/-- The recursive `checkConnection` loop of `waitForConnection`: at poll `k`
(elapsed `k * 1000` ms) it first checks `Date.now() - startTime > timeout`
and rejects, else runs the `ip route | grep tun` probe (`probe k`) and
resolves `established` on success, else schedules the next poll 1000 ms
later. `fuel` bounds the recursion; `none` means the fuel ran out. -/
def pollLoop (probe : Nat → Bool) (timeout : Nat) : Nat → Nat → Option ProbeOutcome
  | _, 0 => none
  | k, fuel + 1 =>
      if k * 1000 > timeout then some (ProbeOutcome.timedOut (k * 1000))
      else if probe k then some (ProbeOutcome.established (k * 1000))
      else pollLoop probe timeout (k + 1) fuel

/-- Models `waitForConnection(connectionId, timeout = 30000)`: set the status to
`'connecting'`, then run the poll loop; on `established` set the status to
`'connected'` and resolve; on timeout set the status to `'error'` and reject
with the `ConnectionTimeout` error (failing the enclosing `start` call). -/
def VPNManager.waitForConnection (m : VPNManager) (id : String)
    (probe : Nat → Bool) (timeout : Nat) (fuel : Nat) :
    VPNManager × Option ProbeOutcome :=
  let m1 := { m with
    connectionStatus := m.connectionStatus.set id ConnState.connecting }
  match pollLoop probe timeout 0 fuel with
  | some (ProbeOutcome.established t) =>
      ({ m1 with
          connectionStatus := m1.connectionStatus.set id ConnState.connected },
       some (ProbeOutcome.established t))
  | some (ProbeOutcome.timedOut t) =>
      ({ m1 with
          connectionStatus := m1.connectionStatus.set id ConnState.error },
       some (ProbeOutcome.timedOut t))
  | none => (m1, none)

/-- The forwarder's uniform success shape: the fields `handleRequest` copies
out of the axios response. -/
structure NormalizedResponse where
  status : Nat
  statusText : String
  headers : SMap String
  data : String
deriving DecidableEq, Repr

/-- Outcome of one outbound transport attempt. HTTP status codes never
count as failures (`validateStatus: () => true`); `fail` is a transport-level
error (connection refused, timeout, DNS failure, ...) with its message. -/
inductive TransportOutcome
  | ok (resp : NormalizedResponse)
  | fail (msg : String)
deriving DecidableEq, Repr

/-- What `handleRequest` returns or throws. `inactive` is the
`ConnectionInactive` error thrown before any attempt; `exhausted` is the
error thrown after the retry loop, which always reports `maxRetries` in its
message (even when the loop broke early) and carries the last transport
error message. -/
inductive ForwardResult
  | success (resp : NormalizedResponse)
  | inactive (id : String)
  | exhausted (reportedAttempts : Nat) (lastMsg : String)
deriving DecidableEq, Repr

/-- The message of the `Error` thrown by `handleRequest`, if any. -/
def ForwardResult.errorMessage : ForwardResult → Option String
  | ForwardResult.success _ => none
  | ForwardResult.inactive id =>
      some ("VPN connection " ++ id ++ " is not active")
  | ForwardResult.exhausted n msg =>
      some ("Request failed after " ++ toString n ++ " attempts: " ++ msg)

/-- The `ProxyHandler` configuration set in its constructor
(`REQUEST_TIMEOUT || 30000`, `MAX_RETRIES || 3`). -/
structure ProxyHandler where
  timeout : Nat := 30000
  maxRetries : Nat := 3
deriving DecidableEq, Repr

/-- One run of `handleRequest`'s retry loop together with its observable
effects: the result, the number of network calls actually issued, and the
list of back-off waits performed (ms). `transport k` is the outcome of
attempt `k` (1-based); `connAfter k` is what `this.vpnManager.isConnected`
returns when consulted after a failed attempt `k` (the manager state can be
mutated concurrently by the exit handler, hence an oracle). -/
structure LoopTrace where
  result : ForwardResult
  calls : Nat
  waits : List Nat
deriving DecidableEq, Repr

/-- The `for (let attempt = 1; attempt <= this.maxRetries; attempt++)` loop
of `handleRequest`, entered at attempt number `a` with last error `lastErr`,
having already made `calls` calls and performed `waits` waits. On a failed
attempt: if the connection dropped, break (then throw the exhausted error);
else if more attempts remain, wait `1000 * attempt` ms and retry. -/
def handleLoop (h : ProxyHandler) (connAfter : Nat → Bool)
    (transport : Nat → TransportOutcome) (a : Nat) (lastErr : String)
    (calls : Nat) (waits : List Nat) : LoopTrace :=
  if _h : a > h.maxRetries then
    { result := ForwardResult.exhausted h.maxRetries lastErr
      calls := calls, waits := waits }
  else
    match transport a with
    | TransportOutcome.ok resp =>
        { result := ForwardResult.success resp
          calls := calls + 1, waits := waits }
    | TransportOutcome.fail msg =>
        if ¬ connAfter a then
          { result := ForwardResult.exhausted h.maxRetries msg
            calls := calls + 1, waits := waits }
        else if a < h.maxRetries then
          handleLoop h connAfter transport (a + 1) msg (calls + 1)
            (waits ++ [1000 * a])
        else
          handleLoop h connAfter transport (a + 1) msg (calls + 1) waits
termination_by h.maxRetries + 1 - a
decreasing_by
  all_goals omega

/-- Models `handleRequest(connectionId, requestConfig)`: throw `ConnectionInactive`
before any network call if `isConnected(connectionId)` is false (no
auto-start is attempted — the manager is read, never written); otherwise run
the bounded retry loop. -/
def ProxyHandler.handleRequest (h : ProxyHandler) (m : VPNManager)
    (id : String) (connAfter : Nat → Bool)
    (transport : Nat → TransportOutcome) : LoopTrace :=
  if ¬ m.isConnected id then
    { result := ForwardResult.inactive id, calls := 0, waits := [] }
  else
    handleLoop h connAfter transport 1 "" 0 []

/-- The inbound express request as the middleware sees it: method, headers
(Node lowercases incoming header names), parsed query parameters, and the
JSON body (modelled as a string map; only its `url` member is inspected). -/
structure InboundReq where
  method : String
  headers : SMap String
  query : SMap String
  body : SMap String
deriving DecidableEq, Repr

/-- JS truthiness of `obj.url`: `undefined` and the empty string are falsy. -/
def jsTruthyStr : Option String → Bool
  | none => false
  | some s => s ≠ ""

/-- Models `const targetUrl = req.query.url || req.body.url`. -/
def targetUrlOf (req : InboundReq) : Option String :=
  if jsTruthyStr (req.query.get "url") then req.query.get "url"
  else req.body.get "url"

/-- The axios request configuration built by the middleware. -/
structure RequestConfig where
  method : String
  url : String
  headers : SMap String
  params : SMap String
  data : SMap String
deriving DecidableEq, Repr

/-- Build and sanitize the outbound request configuration: spread the inbound
headers and query, then `delete headers.host`, `delete headers['content-length']`
and `delete params.url`. The body is forwarded as `data` unchanged. -/
def buildRequestConfig (req : InboundReq) (targetUrl : String) : RequestConfig :=
  { method := req.method
    url := targetUrl
    headers := (req.headers.del "host").del "content-length"
    params := req.query.del "url"
    data := req.body }

/-- Headers the middleware relays onto the HTTP response: all upstream
response headers except `transfer-encoding`, `connection` and `keep-alive`
(compared case-insensitively). -/
def relayHeaders (hs : SMap String) : SMap String :=
  hs.filter (fun p =>
    !(["transfer-encoding", "connection", "keep-alive"].contains p.1.toLower))

/-- What the middleware sends back to the inbound caller. -/
inductive MwResponse
  | badRequest (error : String)
  | proxied (httpStatus : Nat) (relayed : SMap String) (resp : NormalizedResponse)
  | failure (message : String) (vpnConnection : String) (vpnStatus : ConnState)
deriving DecidableEq, Repr

/-- One run of the middleware returned by `createMiddleware(connectionId)`:
extract the target URL (400 if absent), validate it with `new URL(...)`
(modelled by the oracle `urlValid`; 400 if invalid), build the sanitized
request configuration, run `handleRequest`, and either relay the upstream
response or — in the catch branch — send the 500 envelope
`error: 'Proxy request failed'` carrying `error.message`, the connection id
and the current VPN status. The second component counts network calls. -/
def ProxyHandler.createMiddlewareRun (h : ProxyHandler) (m : VPNManager)
    (id : String) (urlValid : String → Bool) (connAfter : Nat → Bool)
    (transport : RequestConfig → Nat → TransportOutcome) (req : InboundReq) :
    MwResponse × Nat :=
  let targetUrl := targetUrlOf req
  if ¬ jsTruthyStr targetUrl then
    (MwResponse.badRequest "Target URL is required", 0)
  else
    let url := targetUrl.getD ""
    if ¬ urlValid url then
      (MwResponse.badRequest "Invalid URL format", 0)
    else
      let cfg := buildRequestConfig req url
      let trace := h.handleRequest m id connAfter (transport cfg)
      match trace.result with
      | ForwardResult.success resp =>
          (MwResponse.proxied resp.status (relayHeaders resp.headers) resp,
           trace.calls)
      | r =>
          (MwResponse.failure (r.errorMessage.getD "") id (m.getStatus id),
           trace.calls)

/-- The proxy route as mounted in the express app, with the `NODE_ENV` the
process runs under in scope. The middleware catches every error itself and
responds directly, so nothing on this path ever reaches the app-level error
middleware and `nodeEnv` is never consulted. -/
def appProxyRun (nodeEnv : String) (h : ProxyHandler) (m : VPNManager)
    (id : String) (urlValid : String → Bool) (connAfter : Nat → Bool)
    (transport : RequestConfig → Nat → TransportOutcome) (req : InboundReq) :
    MwResponse × Nat :=
  let _ := nodeEnv
  h.createMiddlewareRun m id urlValid connAfter transport req

/-- Body of the app-level error-handling middleware's 500 response. -/
structure ServerErrorBody where
  error : String
  message : String
deriving DecidableEq, Repr

/-- The app-level error-handling middleware (`app.use((error, req, res, next)`
in `server.js`): responds 500 with the internal message only when
`NODE_ENV === 'development'`, else the generic `'Something went wrong'`.
It only ever sees errors passed to `next(error)`. -/
def errorMiddlewareResponse (nodeEnv : String) (errMsg : String) :
    ServerErrorBody :=
  { error := "Internal server error"
    message := if nodeEnv = "development" then errMsg else "Something went wrong" }

/-- A manager tracking one live connection `"c"` in state `'connected'`,
with a fresh reconnect counter: the state right after a successful `start`. -/
def sampleConnected : VPNManager :=
  { VPNManager.init with
      connections := [("c", ⟨Protocol.tcp, 0⟩)]
      connectionStatus := [("c", ConnState.connected)] }

/-- A proxy handler with the default configuration
(`timeout = 30000`, `maxRetries = 3`). -/
def sampleHandler : ProxyHandler := {}

/-- A transport that fails every attempt `k` with a distinct message. -/
def sampleFailTransport : Nat → TransportOutcome :=
  fun k => TransportOutcome.fail ("boom" ++ toString k)

/-- An inbound request carrying a `host` header, a `content-length` header
and the proxy-control `url` query key alongside ordinary fields. -/
def sampleReq : InboundReq :=
  { method := "GET"
    headers := [("host", "example.local"), ("content-length", "3"), ("accept", "a")]
    query := [("url", "https://example.test/ok"), ("q", "1")]
    body := [("b", "2")] }

/-- An inbound request with no `url` in either the query or the body. -/
def sampleReqNoUrl : InboundReq :=
  { method := "GET", headers := [], query := [("q", "1")], body := [("b", "2")] }

/-! ## General lemmas about the embedded maps and loops -/

theorem SMap.get_del_ne {α : Type} (m : SMap α) (k k' : String) (h : k' ≠ k) :
    (m.del k).get k' = m.get k' := by
  induction m with
  | nil => rfl
  | cons p t ih =>
      obtain ⟨a, b⟩ := p
      simp only [SMap.del, SMap.get] at ih ⊢
      rw [List.filter_cons]
      by_cases hp : a = k
      · rw [if_neg (by simp [hp])]
        rw [ih, List.lookup_cons]
        rw [beq_eq_false_iff_ne.mpr (by rw [hp]; exact h)]
      · rw [if_pos (by simp [hp])]
        rw [List.lookup_cons, List.lookup_cons]
        cases hk : k' == a
        · exact ih
        · rfl

theorem SMap.get_del_self {α : Type} (m : SMap α) (k : String) :
    (m.del k).get k = none := by
  simp only [SMap.del, SMap.get]
  rw [List.lookup_eq_none_iff]
  intro p hp
  have h2 : p.1 ≠ k := by simpa using (List.mem_filter.mp hp).2
  exact bne_iff_ne.mpr (fun e => h2 e.symm)

theorem SMap.get_set_self {α : Type} (m : SMap α) (k : String) (v : α) :
    (m.set k v).get k = some v := by
  simp [SMap.get, SMap.set]

theorem SMap.get_set_ne {α : Type} (m : SMap α) (k k' : String) (v : α)
    (h : k' ≠ k) : (m.set k v).get k' = m.get k' := by
  simp only [SMap.set, SMap.get]
  rw [List.lookup_cons]
  rw [beq_eq_false_iff_ne.mpr h]
  exact SMap.get_del_ne m k k' h

theorem handleLoop_eq_ok (h : ProxyHandler) (ca : Nat → Bool)
    (tr : Nat → TransportOutcome) (a : Nat) (e : String) (calls : Nat)
    (waits : List Nat) (resp : NormalizedResponse)
    (ha : ¬ a > h.maxRetries) (htr : tr a = TransportOutcome.ok resp) :
    handleLoop h ca tr a e calls waits =
      { result := ForwardResult.success resp, calls := calls + 1, waits := waits } := by
  rw [handleLoop, dif_neg ha, htr]

theorem handleLoop_eq_fail (h : ProxyHandler) (ca : Nat → Bool)
    (tr : Nat → TransportOutcome) (a : Nat) (e : String) (calls : Nat)
    (waits : List Nat) (msg : String)
    (ha : ¬ a > h.maxRetries) (htr : tr a = TransportOutcome.fail msg) :
    handleLoop h ca tr a e calls waits =
      if ¬ ca a then
        { result := ForwardResult.exhausted h.maxRetries msg
          calls := calls + 1, waits := waits }
      else if a < h.maxRetries then
        handleLoop h ca tr (a + 1) msg (calls + 1) (waits ++ [1000 * a])
      else
        handleLoop h ca tr (a + 1) msg (calls + 1) waits := by
  rw [handleLoop, dif_neg ha, htr]

theorem handleLoop_eq_stop (h : ProxyHandler) (ca : Nat → Bool)
    (tr : Nat → TransportOutcome) (a : Nat) (e : String) (calls : Nat)
    (waits : List Nat) (ha : a > h.maxRetries) :
    handleLoop h ca tr a e calls waits =
      { result := ForwardResult.exhausted h.maxRetries e
        calls := calls, waits := waits } := by
  rw [handleLoop, dif_pos ha]

/-- Characterization of the retry loop on an all-failing run: if every
attempt from `a` through `d` fails, the liveness check holds strictly
before `d`, and the run stops at `d` (either `d` is the last allowed
attempt or the connection is observed down after attempt `d`), the loop
makes attempts `a..d`, backs off `1000·j` ms after each attempt `j < d`,
and throws the exhausted error carrying attempt `d`'s message. -/
theorem handleLoop_fail_run (h : ProxyHandler) (connAfter : Nat → Bool)
    (transport : Nat → TransportOutcome) (f : Nat → String) (d : Nat)
    (hd : d ≤ h.maxRetries)
    (hstop : d = h.maxRetries ∨ connAfter d = false)
    (hfail : ∀ k, 1 ≤ k → k ≤ d → transport k = TransportOutcome.fail (f k))
    (hlive : ∀ k, 1 ≤ k → k < d → connAfter k = true) :
    ∀ n a e calls waits, 1 ≤ a → a ≤ d → d - a = n →
      handleLoop h connAfter transport a e calls waits =
        { result := ForwardResult.exhausted h.maxRetries (f d)
          calls := calls + (d - a + 1)
          waits := waits ++ (List.range' a (d - a)).map (fun j => 1000 * j) } := by
  intro n
  induction n with
  | zero =>
      intro a e calls waits ha had hn
      have hae : a = d := by omega
      rw [handleLoop_eq_fail h connAfter transport a e calls waits (f a) (by omega)
        (hfail a ha (by omega))]
      rcases hstop with hs | hs
      · by_cases hca : connAfter a = true
        · rw [if_neg (by simp [hca])]
          rw [if_neg (by omega)]
          rw [handleLoop_eq_stop h connAfter transport (a + 1) (f a) (calls + 1) waits
            (by omega)]
          simp [hae]
        · rw [if_pos (by simp [hca])]
          simp [hae]
      · rw [if_pos (by rw [hae]; simp [hs])]
        simp [hae]
  | succ n ih =>
      intro a e calls waits ha had hn
      have hlt : a < d := by omega
      rw [handleLoop_eq_fail h connAfter transport a e calls waits (f a) (by omega)
        (hfail a ha (by omega))]
      rw [if_neg (by simp [hlive a ha hlt])]
      rw [if_pos (by omega)]
      rw [ih (a + 1) (f a) (calls + 1) (waits ++ [1000 * a]) (by omega) (by omega)
        (by omega)]
      have hr : List.range' a (d - a) = a :: List.range' (a + 1) (d - (a + 1)) := by
        have h1 : d - a = (d - (a + 1)) + 1 := by omega
        rw [h1, List.range'_succ]
      simp [hr]
      omega

/-- Behaviour of `handleRequest` when the connection is `'connected'` at
entry, every transport attempt fails, and the liveness check keeps passing:
exactly `maxRetries` attempts, backoffs `1s, 2s, …` between them, and the
exhausted error carries the last attempt's message. -/
theorem handleRequest_all_fail (h : ProxyHandler) (m : VPNManager) (id : String)
    (connAfter : Nat → Bool) (transport : Nat → TransportOutcome) (f : Nat → String)
    (hR : 1 ≤ h.maxRetries) (hconn : m.isConnected id = true)
    (hfail : ∀ k, 1 ≤ k → k ≤ h.maxRetries → transport k = TransportOutcome.fail (f k))
    (hlive : ∀ k, 1 ≤ k → k < h.maxRetries → connAfter k = true) :
    h.handleRequest m id connAfter transport =
      { result := ForwardResult.exhausted h.maxRetries (f h.maxRetries)
        calls := h.maxRetries
        waits := (List.range' 1 (h.maxRetries - 1)).map (fun j => 1000 * j) } := by
  unfold ProxyHandler.handleRequest
  rw [if_neg (by simp [hconn])]
  rw [handleLoop_fail_run h connAfter transport f h.maxRetries le_rfl (Or.inl rfl)
    hfail hlive (h.maxRetries - 1) 1 "" 0 [] (by omega) hR (by omega)]
  simp
  omega

/-- The poll loop resolves (returns `some`) for EVERY probe once the fuel
covers the poll budget `timeout / 1000 + 2`. -/
theorem pollLoop_resolves (probe : Nat → Bool) (timeout : Nat) :
    ∀ fuel k, timeout / 1000 + 2 ≤ fuel + k → 1 ≤ fuel →
      pollLoop probe timeout k fuel ≠ none := by
  intro fuel
  induction fuel with
  | zero => intro k h h1; omega
  | succ fuel ih =>
      intro k h _
      rw [pollLoop]
      by_cases h1 : k * 1000 > timeout
      · simp [h1]
      · rw [if_neg h1]
        by_cases h2 : probe k = true
        · simp [h2]
        · rw [if_neg (by simp [h2])]
          exact ih (k + 1) (by omega) (by omega)

/-- With a never-succeeding probe, the poll loop rejects at the first poll
index whose elapsed time exceeds the timeout: elapsed
`(timeout / 1000 + 1) * 1000` ms. -/
theorem pollLoop_never_succeeds (probe : Nat → Bool) (timeout : Nat)
    (hp : ∀ j, probe j = false) :
    ∀ fuel k, timeout / 1000 + 2 ≤ fuel + k → k ≤ timeout / 1000 + 1 →
      pollLoop probe timeout k fuel
        = some (ProbeOutcome.timedOut ((timeout / 1000 + 1) * 1000)) := by
  intro fuel
  induction fuel with
  | zero => intro k h hk; omega
  | succ fuel ih =>
      intro k h hk
      rw [pollLoop]
      by_cases h1 : k * 1000 > timeout
      · have hk2 : k = timeout / 1000 + 1 := by omega
        rw [if_pos h1, hk2]
      · rw [if_neg h1, if_neg (by simp [hp k])]
        exact ih (k + 1) (by omega) (by omega)

/-! ## Claim theorems -/

/-- C9: `stop` on a connection name that was never started (tracked in
neither `connections` nor `connectionStatus`) is a no-op that raises no
error: it only reports the not-found warning, sends no termination signal
and leaves the manager state unchanged, and a subsequent status query for
that name reports `'disconnected'`. -/
theorem C9_stop_never_started_noop (m : VPNManager) (id : String)
    (hc : m.connections.get id = none)
    (hs : m.connectionStatus.get id = none) :
    m.stopVPN id = (m, { warnedNotFound := true, sigtermSent := false }) ∧
    (m.stopVPN id).1.getStatus id = ConnState.disconnected := by
  have h1 : m.stopVPN id = (m, { warnedNotFound := true, sigtermSent := false }) := by
    unfold VPNManager.stopVPN
    rw [hc]
  refine ⟨h1, ?_⟩
  rw [h1]
  unfold VPNManager.getStatus
  rw [hs]
  rfl

/-- Witness for C9 at the fresh manager and the name `"never"`. -/
theorem C9_stop_never_started_noop_witness :
    VPNManager.init.stopVPN "never"
        = (VPNManager.init, { warnedNotFound := true, sigtermSent := false }) ∧
    (VPNManager.init.stopVPN "never").1.getStatus "never" = ConnState.disconnected :=
  C9_stop_never_started_noop VPNManager.init "never" rfl rfl

/-- C3: a `forward` (`handleRequest`) against a connection whose state is
not exactly `'connected'` fails immediately with the `ConnectionInactive`
error, makes zero network calls and performs no waits; the manager is only
read (the model's `handleRequest` takes the manager state as a pure input),
so no auto-start of the connection is attempted. -/
theorem C3_forward_inactive_rejected (h : ProxyHandler) (m : VPNManager)
    (id : String) (connAfter : Nat → Bool) (transport : Nat → TransportOutcome)
    (hs : m.getStatus id ≠ ConnState.connected) :
    h.handleRequest m id connAfter transport =
      { result := ForwardResult.inactive id, calls := 0, waits := [] } := by
  have hb : m.isConnected id = false := by
    unfold VPNManager.isConnected
    simp only [decide_eq_false_iff_not]
    intro he
    apply hs
    unfold VPNManager.getStatus
    rw [he]
    rfl
  simp [ProxyHandler.handleRequest, hb]

/-- Witness for C3 at the fresh (everything-`disconnected`) manager. -/
theorem C3_forward_inactive_rejected_witness :
    sampleHandler.handleRequest VPNManager.init "c" (fun _ => true) sampleFailTransport
      = { result := ForwardResult.inactive "c", calls := 0, waits := [] } :=
  C3_forward_inactive_rejected sampleHandler VPNManager.init "c" (fun _ => true)
    sampleFailTransport (by decide)

/-- C7: for every inbound request descriptor — including descriptors that
carry them — the sanitized request configuration the forwarder sends
outbound contains no `host` header, no `content-length` header, and no
proxy-control `url` query parameter. -/
theorem C7_sanitized_config_strips_keys (req : InboundReq) (targetUrl : String) :
    (buildRequestConfig req targetUrl).headers.get "host" = none ∧
    (buildRequestConfig req targetUrl).headers.get "content-length" = none ∧
    (buildRequestConfig req targetUrl).params.get "url" = none := by
  refine ⟨?_, ?_, ?_⟩
  · show ((req.headers.del "host").del "content-length").get "host" = none
    rw [SMap.get_del_ne _ _ _ (by decide)]
    exact SMap.get_del_self _ _
  · exact SMap.get_del_self _ _
  · exact SMap.get_del_self _ _

/-- C10: an inbound proxy request that supplies no target URL in either the
query parameters or the body receives the 400 `Target URL is required`
response with zero network calls, for every manager state and transport —
in particular the connection's state is never consulted, no auto-start
happens, and the answer is the same whether or not the connection is
active. -/
theorem C10_missing_url_bad_request (h : ProxyHandler) (m : VPNManager)
    (id : String) (urlValid : String → Bool) (connAfter : Nat → Bool)
    (transport : RequestConfig → Nat → TransportOutcome) (req : InboundReq)
    (hq : req.query.get "url" = none) (hb : req.body.get "url" = none) :
    h.createMiddlewareRun m id urlValid connAfter transport req =
      (MwResponse.badRequest "Target URL is required", 0) := by
  have ht : targetUrlOf req = none := by
    unfold targetUrlOf
    rw [hq, hb]
    rfl
  simp [ProxyHandler.createMiddlewareRun, ht, jsTruthyStr]

/-- Witness for C10: a url-less request against an active connection and a
transport that would succeed still gets the 400, with zero calls. -/
theorem C10_missing_url_bad_request_witness :
    sampleHandler.createMiddlewareRun sampleConnected "c" (fun _ => true)
        (fun _ => true) (fun _ _ => TransportOutcome.ok ⟨200, "OK", [], "d"⟩)
        sampleReqNoUrl
      = (MwResponse.badRequest "Target URL is required", 0) :=
  C10_missing_url_bad_request sampleHandler sampleConnected "c" (fun _ => true)
    (fun _ => true) (fun _ _ => TransportOutcome.ok ⟨200, "OK", [], "d"⟩)
    sampleReqNoUrl rfl rfl

theorem attemptReconnect_connectionStatus (m : VPNManager) (id : String) :
    (m.attemptReconnect id).1.connectionStatus = m.connectionStatus := by
  unfold VPNManager.attemptReconnect
  split
  · rfl
  · rfl

theorem attemptReconnect_max (m : VPNManager) (id : String) :
    (m.attemptReconnect id).1.maxReconnectAttempts = m.maxReconnectAttempts := by
  unfold VPNManager.attemptReconnect
  split
  · rfl
  · rfl

theorem onExit_connectionStatus (m : VPNManager) (id : String)
    (code : Option Int) (signal : Option String) :
    (m.onExit id code signal).1.connectionStatus.get id
      = some ConnState.disconnected := by
  unfold VPNManager.onExit
  split
  · rw [attemptReconnect_connectionStatus]
    exact SMap.get_set_self _ _ _
  · exact SMap.get_set_self _ _ _

theorem onExit_max (m : VPNManager) (id : String)
    (code : Option Int) (signal : Option String) :
    (m.onExit id code signal).1.maxReconnectAttempts = m.maxReconnectAttempts := by
  unfold VPNManager.onExit
  split
  · rw [attemptReconnect_max]
  · rfl

theorem consecutiveExits_spec (m : VPNManager) (id : String)
    (h0 : (m.reconnectAttempts.get id).getD 0 = 0) (k : Nat) :
    (m.consecutiveExits id k).1.maxReconnectAttempts = m.maxReconnectAttempts ∧
    ((m.consecutiveExits id k).1.reconnectAttempts.get id).getD 0
      = min k m.maxReconnectAttempts ∧
    ((m.consecutiveExits id k).2 = true ↔ 1 ≤ k ∧ k ≤ m.maxReconnectAttempts) := by
  induction k with
  | zero =>
      refine ⟨rfl, by simpa using h0, by simp [VPNManager.consecutiveExits]⟩
  | succ k ih =>
      obtain ⟨ihmax, ihcnt, _⟩ := ih
      set X := (m.consecutiveExits id k).1 with hX
      have hstep : m.consecutiveExits id (k + 1) = X.onExit id (some 1) none := rfl
      rw [hstep]
      unfold VPNManager.onExit
      rw [if_pos (by simp)]
      unfold VPNManager.attemptReconnect
      by_cases hge : k ≥ m.maxReconnectAttempts
      · rw [if_pos (show (X.reconnectAttempts.get id).getD 0 ≥ X.maxReconnectAttempts by
          rw [ihcnt, ihmax]; omega)]
        refine ⟨ihmax, ?_, ?_⟩
        · show (X.reconnectAttempts.get id).getD 0 = min (k + 1) m.maxReconnectAttempts
          rw [ihcnt]; omega
        · show false = true ↔ 1 ≤ k + 1 ∧ k + 1 ≤ m.maxReconnectAttempts
          simp only [Bool.false_eq_true, false_iff]
          omega
      · rw [if_neg (show ¬ (X.reconnectAttempts.get id).getD 0 ≥ X.maxReconnectAttempts by
          rw [ihcnt, ihmax]; omega)]
        refine ⟨ihmax, ?_, ?_⟩
        · show ((X.reconnectAttempts.set id
              ((X.reconnectAttempts.get id).getD 0 + 1)).get id).getD 0
            = min (k + 1) m.maxReconnectAttempts
          rw [SMap.get_set_self]
          simp only [Option.getD_some]
          rw [ihcnt]; omega
        · show true = true ↔ 1 ≤ k + 1 ∧ k + 1 ≤ m.maxReconnectAttempts
          exact ⟨fun _ => ⟨by omega, by omega⟩, fun _ => rfl⟩

theorem consecutiveExits_last_status (m : VPNManager) (id : String) (k : Nat)
    (hk : 1 ≤ k) :
    (m.consecutiveExits id k).1.connectionStatus.get id
      = some ConnState.disconnected := by
  obtain ⟨j, rfl⟩ : ∃ j, k = j + 1 := ⟨k - 1, by omega⟩
  have hstep : m.consecutiveExits id (j + 1)
      = ((m.consecutiveExits id j).1).onExit id (some 1) none := rfl
  rw [hstep]
  exact onExit_connectionStatus _ _ _ _

/-- C1 counterexample: from the fresh manager (name `"c"` untracked, config
and auth files present) two `start` calls in immediate succession — the
second one running while the first has the connection in `'connecting'`,
exactly the situation the claim includes — spawn one external process EACH:
two processes in total, so the claimed "at most one" is false. -/
theorem C1_counterexample_duplicate_spawn :
    (VPNManager.init.startVPNSync "c" Protocol.tcp ⟨true, true⟩ 0).1.getStatus "c"
        = ConnState.connecting ∧
    ¬ ((VPNManager.init.startVPNSync "c" Protocol.tcp ⟨true, true⟩ 0).2.2
        + ((VPNManager.init.startVPNSync "c" Protocol.tcp ⟨true, true⟩ 0).1.startVPNSync
            "c" Protocol.tcp ⟨true, true⟩ 0).2.2 ≤ 1) := by
  decide

/-- C1 amended: the duplicate-start guard covers only the `'connected'`
state. If the connection is already `'connected'`, a second immediate start
spawns nothing (two starts spawn zero processes and return success); but
whenever the connection is NOT `'connected'` — in particular while the
first start still has it `'connecting'` — and the configuration artifacts
are present, each of the two immediate starts spawns a process, two in
total. -/
theorem C1_amended_duplicate_guard (m : VPNManager) (id : String)
    (proto : Protocol) (env : StartEnv) (now1 now2 : Nat) :
    (m.isConnected id = true →
      (m.startVPNSync id proto env now1).2.2
        + ((m.startVPNSync id proto env now1).1.startVPNSync id proto env now2).2.2
        = 0) ∧
    (m.isConnected id = false → env.configExists = true → env.authExists = true →
      (m.startVPNSync id proto env now1).2.2
        + ((m.startVPNSync id proto env now1).1.startVPNSync id proto env now2).2.2
        = 2) := by
  constructor
  · intro hc
    simp [VPNManager.startVPNSync, hc]
  · intro hc hcfg hauth
    have hm1 : m.startVPNSync id proto env now1 =
        ({ m with
            connections := m.connections.set id ⟨proto, now1⟩
            connectionStatus := m.connectionStatus.set id ConnState.connecting },
         StartSyncOutcome.spawnedAwaitingProbe, 1) := by
      simp [VPNManager.startVPNSync, hc, hcfg, hauth]
    have hm2 : ({ m with
        connections := m.connections.set id ⟨proto, now1⟩
        connectionStatus := m.connectionStatus.set id ConnState.connecting }
          : VPNManager).isConnected id = false := by
      simp [VPNManager.isConnected, SMap.get_set_self]
    rw [hm1]
    simp [VPNManager.startVPNSync, hm2, hcfg, hauth]

/-- Witness for C1 amended: from `'connected'` two immediate starts spawn
zero processes; from the fresh `'disconnected'` manager they spawn two. -/
theorem C1_amended_duplicate_guard_witness :
    ((sampleConnected.startVPNSync "c" Protocol.tcp ⟨true, true⟩ 0).2.2
      + ((sampleConnected.startVPNSync "c" Protocol.tcp ⟨true, true⟩ 0).1.startVPNSync
          "c" Protocol.tcp ⟨true, true⟩ 0).2.2 = 0) ∧
    ((VPNManager.init.startVPNSync "c" Protocol.tcp ⟨true, true⟩ 1).2.2
      + ((VPNManager.init.startVPNSync "c" Protocol.tcp ⟨true, true⟩ 1).1.startVPNSync
          "c" Protocol.tcp ⟨true, true⟩ 1).2.2 = 2) :=
  ⟨(C1_amended_duplicate_guard sampleConnected "c" Protocol.tcp ⟨true, true⟩ 0 0).1
      (by decide),
   (C1_amended_duplicate_guard VPNManager.init "c" Protocol.tcp ⟨true, true⟩ 1 1).2
      (by decide) rfl rfl⟩

/-- C2 counterexample: with the default maximum of 3 reconnect attempts and
a fresh attempt counter, the THIRD consecutive unintentional exit still
schedules a further start attempt (the counter it reads is 2 < 3), so after
exactly N = 3 consecutive unintentional exits the policy has scheduled
another start — the claim that it schedules no further attempt is false. -/
theorem C2_counterexample_third_exit_schedules :
    sampleConnected.maxReconnectAttempts = 3 ∧
    (sampleConnected.consecutiveExits "c" 3).2 = true := by
  decide

/-- C2 amended: with a fresh attempt counter and maximum N ≥ 1, the k-th
consecutive unintentional exit schedules a reconnect start exactly when
k ≤ N — so the N-th exit still schedules one final attempt, and only after
N + 1 consecutive unintentional exits does the policy stop scheduling,
leaving the connection `'disconnected'`. -/
theorem C2_amended_reconnect_ceiling (m : VPNManager) (id : String)
    (h0 : (m.reconnectAttempts.get id).getD 0 = 0)
    (hN : 1 ≤ m.maxReconnectAttempts) :
    (m.consecutiveExits id m.maxReconnectAttempts).2 = true ∧
    (m.consecutiveExits id (m.maxReconnectAttempts + 1)).2 = false ∧
    (m.consecutiveExits id (m.maxReconnectAttempts + 1)).1.getStatus id
      = ConnState.disconnected := by
  refine ⟨?_, ?_, ?_⟩
  · exact (consecutiveExits_spec m id h0 m.maxReconnectAttempts).2.2.mpr
      ⟨hN, le_refl _⟩
  · have h := (consecutiveExits_spec m id h0 (m.maxReconnectAttempts + 1)).2.2
    cases hb : (m.consecutiveExits id (m.maxReconnectAttempts + 1)).2
    · rfl
    · exact absurd ((h.mp hb).2) (by omega)
  · unfold VPNManager.getStatus
    rw [consecutiveExits_last_status m id _ (by omega)]
    rfl

/-- Witness for C2 amended at the default configuration (N = 3). -/
theorem C2_amended_reconnect_ceiling_witness :
    (sampleConnected.consecutiveExits "c" sampleConnected.maxReconnectAttempts).2
        = true ∧
    (sampleConnected.consecutiveExits "c" (sampleConnected.maxReconnectAttempts + 1)).2
        = false ∧
    (sampleConnected.consecutiveExits "c"
        (sampleConnected.maxReconnectAttempts + 1)).1.getStatus "c"
      = ConnState.disconnected :=
  C2_amended_reconnect_ceiling sampleConnected "c" rfl (by decide)

/-- C4: when every transport attempt fails while the connection stays
active throughout, `forward` makes exactly the configured maximum number of
attempts (`maxRetries`, default 3), waits `attempt-number × 1s` between
consecutive attempts (1s after attempt 1, 2s after attempt 2, …), and then
throws the exhausted (`ForwardExhausted`) error carrying the LAST
underlying transport error message. -/
theorem C4_forward_exhausts_max_attempts (h : ProxyHandler) (m : VPNManager)
    (id : String) (connAfter : Nat → Bool) (transport : Nat → TransportOutcome)
    (f : Nat → String)
    (hR : 1 ≤ h.maxRetries) (hconn : m.isConnected id = true)
    (hfail : ∀ k, 1 ≤ k → k ≤ h.maxRetries →
      transport k = TransportOutcome.fail (f k))
    (hlive : ∀ k, connAfter k = true) :
    h.handleRequest m id connAfter transport =
      { result := ForwardResult.exhausted h.maxRetries (f h.maxRetries)
        calls := h.maxRetries
        waits := (List.range' 1 (h.maxRetries - 1)).map (fun j => 1000 * j) } :=
  handleRequest_all_fail h m id connAfter transport f hR hconn hfail
    (fun k _ _ => hlive k)

/-- Witness for C4 at the default configuration: 3 attempts, backoffs
[1000 ms, 2000 ms], error carrying attempt 3's message. -/
theorem C4_forward_exhausts_max_attempts_witness :
    sampleHandler.handleRequest sampleConnected "c" (fun _ => true)
        sampleFailTransport
      = { result := ForwardResult.exhausted 3 "boom3", calls := 3
          waits := [1000, 2000] } := by
  have h := C4_forward_exhausts_max_attempts sampleHandler sampleConnected "c"
      (fun _ => true) sampleFailTransport (fun k => "boom" ++ toString k)
      (by decide) (by decide) (fun k _ _ => rfl) (fun k => rfl)
  rw [h]
  rfl

/-- C5: if the connection is observed to have dropped away from
`'connected'` by the liveness check after failed attempt `d`, with `d`
strictly below the configured attempt ceiling, `forward` abandons retrying
immediately: it makes exactly `d` network attempts — strictly fewer than
`maxRetries` — performs no further backoff wait, and surfaces the thrown
failure carrying attempt `d`'s transport message (its text still reports
the configured `maxRetries`). -/
theorem C5_forward_abandons_on_drop (h : ProxyHandler) (m : VPNManager)
    (id : String) (connAfter : Nat → Bool) (transport : Nat → TransportOutcome)
    (f : Nat → String) (d : Nat)
    (hconn : m.isConnected id = true) (hd1 : 1 ≤ d) (hdR : d < h.maxRetries)
    (hfail : ∀ k, 1 ≤ k → k ≤ d → transport k = TransportOutcome.fail (f k))
    (hlive : ∀ k, 1 ≤ k → k < d → connAfter k = true)
    (hdrop : connAfter d = false) :
    h.handleRequest m id connAfter transport =
      { result := ForwardResult.exhausted h.maxRetries (f d)
        calls := d
        waits := (List.range' 1 (d - 1)).map (fun j => 1000 * j) } ∧
    (h.handleRequest m id connAfter transport).calls < h.maxRetries := by
  have hmain : h.handleRequest m id connAfter transport =
      { result := ForwardResult.exhausted h.maxRetries (f d)
        calls := d
        waits := (List.range' 1 (d - 1)).map (fun j => 1000 * j) } := by
    unfold ProxyHandler.handleRequest
    rw [if_neg (by simp [hconn])]
    rw [handleLoop_fail_run h connAfter transport f d (by omega) (Or.inr hdrop)
      hfail hlive (d - 1) 1 "" 0 [] (by omega) hd1 (by omega)]
    simp
    omega
  refine ⟨hmain, ?_⟩
  rw [hmain]
  exact hdR

/-- Witness for C5: the connection drops after attempt 1; one attempt is
made (of the 3 allowed), no backoff wait happens, and the failure carries
attempt 1's message. -/
theorem C5_forward_abandons_on_drop_witness :
    sampleHandler.handleRequest sampleConnected "c" (fun k => k != 1)
        sampleFailTransport
      = { result := ForwardResult.exhausted 3 "boom1", calls := 1, waits := [] } ∧
    (sampleHandler.handleRequest sampleConnected "c" (fun k => k != 1)
        sampleFailTransport).calls < 3 := by
  have h := C5_forward_abandons_on_drop sampleHandler sampleConnected "c"
      (fun k => k != 1) sampleFailTransport (fun k => "boom" ++ toString k) 1
      (by decide) (by omega) (by decide) (fun k _ _ => rfl)
      (fun k h1 h2 => by omega) (by decide)
  refine ⟨?_, ?_⟩
  · rw [h.1]
    rfl
  · exact h.2

/-- C6 counterexample: with the default 30s timeout and the hard-coded 1s
poll interval, a connection whose probe never succeeds is moved to
`'error'` only at the first poll AFTER the deadline — elapsed 31000 ms,
which is LATER than the configured 30000 ms timeout — so "no later than
the configured overall timeout" is false (the `ConnectionTimeout`
rejection itself does happen). -/
theorem C6_counterexample_error_after_deadline :
    (VPNManager.init.waitForConnection "c" (fun _ => false) 30000 32).2
        = some (ProbeOutcome.timedOut 31000) ∧
    (VPNManager.init.waitForConnection "c" (fun _ => false) 30000 32).1.getStatus "c"
        = ConnState.error ∧
    30000 < 31000 := by
  decide

/-- C6 amended: a connection whose probe never succeeds is transitioned to
`'error'` at the first poll after the timeout elapses — elapsed
`(timeout/1000 + 1) · 1000` ms, strictly greater than `timeout` but at most
`timeout + 1000` ms (one poll interval) — and the wait rejects with the
`ConnectionTimeout` outcome, failing the enclosing `start`; moreover for
EVERY probe the wait resolves within the fuel bound, so no connection is
left `'connecting'` forever. -/
theorem C6_amended_probe_timeout (m : VPNManager) (id : String)
    (probe : Nat → Bool) (timeout fuel : Nat)
    (hfuel : timeout / 1000 + 2 ≤ fuel) :
    ((∀ j, probe j = false) →
      (m.waitForConnection id probe timeout fuel).2
          = some (ProbeOutcome.timedOut ((timeout / 1000 + 1) * 1000)) ∧
      (m.waitForConnection id probe timeout fuel).1.getStatus id
          = ConnState.error ∧
      timeout < (timeout / 1000 + 1) * 1000 ∧
      (timeout / 1000 + 1) * 1000 ≤ timeout + 1000) ∧
    (m.waitForConnection id probe timeout fuel).2 ≠ none := by
  constructor
  · intro hp
    have hres := pollLoop_never_succeeds probe timeout hp fuel 0 (by omega) (by omega)
    unfold VPNManager.waitForConnection
    rw [hres]
    refine ⟨rfl, ?_, by omega, by omega⟩
    unfold VPNManager.getStatus
    rw [SMap.get_set_self]
    rfl
  · have hres := pollLoop_resolves probe timeout fuel 0 (by omega) (by omega)
    unfold VPNManager.waitForConnection
    cases hpl : pollLoop probe timeout 0 fuel with
    | none => exact absurd hpl hres
    | some oc =>
        cases oc with
        | timedOut t => simp
        | established t => simp

/-- Witness for C6 amended at the default 30s timeout: rejection at elapsed
31000 ms with the status moved to `'error'`, and the wait resolves. -/
theorem C6_amended_probe_timeout_witness :
    (VPNManager.init.waitForConnection "never" (fun _ => false) 30000 32).2
        = some (ProbeOutcome.timedOut ((30000 / 1000 + 1) * 1000)) ∧
    (VPNManager.init.waitForConnection "never" (fun _ => false) 30000 32).1.getStatus
        "never" = ConnState.error ∧
    (VPNManager.init.waitForConnection "never" (fun _ => false) 30000 32).2 ≠ none := by
  have h := C6_amended_probe_timeout VPNManager.init "never" (fun _ => false)
      30000 32 (by omega)
  exact ⟨(h.1 (fun j => rfl)).1, (h.1 (fun j => rfl)).2.1, h.2⟩

/-- C8 counterexample: running in production mode, a forward failure's
error envelope still carries the internal transport failure message
verbatim (the proxy middleware's catch branch never consults the mode),
not the generic substitute. -/
theorem C8_counterexample_production_leak :
    (appProxyRun "production" sampleHandler sampleConnected "c" (fun _ => true)
        (fun _ => true) (fun _ _ => TransportOutcome.fail "ECONNREFUSED")
        sampleReq).1
      = MwResponse.failure "Request failed after 3 attempts: ECONNREFUSED" "c"
          ConnState.connected ∧
    "Request failed after 3 attempts: ECONNREFUSED" ≠ "Something went wrong" := by
  refine ⟨?_, by decide⟩
  have htrace := handleRequest_all_fail sampleHandler sampleConnected "c"
      (fun _ => true) (fun _ => TransportOutcome.fail "ECONNREFUSED")
      (fun _ => "ECONNREFUSED")
      (by decide) (by decide) (fun k _ _ => rfl) (fun k _ _ => rfl)
  show (sampleHandler.createMiddlewareRun sampleConnected "c" (fun _ => true)
      (fun _ => true) (fun _ _ => TransportOutcome.fail "ECONNREFUSED")
      sampleReq).1 = _
  simp only [ProxyHandler.createMiddlewareRun]
  rw [if_neg (by decide), if_neg (by decide)]
  rw [htrace]
  rfl

/-- C8 amended: the proxy middleware's error envelope for forward failures
is completely independent of the running mode (its `message` field always
carries the internal failure message); the generic-message substitution
outside development mode happens only in the app-level error-handling
middleware, which forward errors never reach because the proxy middleware
catches them itself. -/
theorem C8_amended_mode_independence :
    (∀ envA envB (h : ProxyHandler) m id urlValid connAfter transport req,
      appProxyRun envA h m id urlValid connAfter transport req
        = appProxyRun envB h m id urlValid connAfter transport req) ∧
    (∀ nodeEnv msg, (errorMiddlewareResponse nodeEnv msg).message
        = if nodeEnv = "development" then msg else "Something went wrong") :=
  ⟨fun _ _ _ _ _ _ _ _ _ => rfl, fun _ _ => rfl⟩

end VPNProxy
